import Mathlib

/-!
Verification of the client-side streaming (WebSocket) logic of the
traffic-monitoring-system repository.

The embedded code comes from:
* `frontend/src/services/api.js` — the `WebSocketService` class (constructor,
  `connect`, `handleReconnect`, `disconnect`, `send`, `ping`, `getStatus`),
  its attached socket event handlers, and the module-scope 30-second
  keepalive `setInterval`;
* `frontend/src/App.js` — `handleRouteSelect` and the `connect` listener;
* the full App component (unnamed part_001) — `connectWebSocket` with its
  inline `onmessage` / `onopen` / `onclose` handlers;
* `frontend/src/App_simple.js` — its inline `ws.onmessage` handler.

JavaScript runtime values exchanged on the channel are modelled by `JsValue`;
`JSON.parse` failure is modelled by handing the handler `Option JsValue`
(`none` = the parse threw and control went to the `catch` block).
-/

/-- A JavaScript value as it appears in the client code: the result of
`JSON.parse`, object-literal message payloads, and property accesses
(`vUndef` models `undefined`, the result of reading a missing property). -/
inductive JsValue where
  | vUndef : JsValue
  | vNull : JsValue
  | vBool : Bool → JsValue
  | vNum : Int → JsValue
  | vStr : String → JsValue
  | vArr : List JsValue → JsValue
  | vObj : List (String × JsValue) → JsValue
deriving Repr, Inhabited

mutual

/-- Structural equality of JS values, modelling the `===` comparisons and
deep payload comparisons in the theorems below. -/
def JsValue.beq : JsValue → JsValue → Bool
  | JsValue.vUndef, JsValue.vUndef => true
  | JsValue.vNull, JsValue.vNull => true
  | JsValue.vBool a, JsValue.vBool b => a == b
  | JsValue.vNum a, JsValue.vNum b => a == b
  | JsValue.vStr a, JsValue.vStr b => a == b
  | JsValue.vArr a, JsValue.vArr b => beqElems a b
  | JsValue.vObj a, JsValue.vObj b => beqFields a b
  | _, _ => false

def beqElems : List JsValue → List JsValue → Bool
  | [], [] => true
  | x :: xs, y :: ys => JsValue.beq x y && beqElems xs ys
  | _, _ => false

def beqFields : List (String × JsValue) → List (String × JsValue) → Bool
  | [], [] => true
  | (k1, v1) :: xs, (k2, v2) :: ys => k1 == k2 && JsValue.beq v1 v2 && beqFields xs ys
  | _, _ => false

end

instance : BEq JsValue := ⟨JsValue.beq⟩

/-- Property access `v[key]`: the field value on an object, `undefined`
otherwise (reading a property of `null` throws in JS, but every access in the
embedded handlers sits inside a `try`/`catch` whose catch leaves the state
unchanged, which coincides with the `vUndef` result here). -/
def jsGet (v : JsValue) (key : String) : JsValue :=
  match v with
  | JsValue.vObj fields =>
    match fields.find? (fun f => f.1 == key) with
    | some f => f.2
    | none => JsValue.vUndef
  | _ => JsValue.vUndef

/-- JavaScript truthiness, as used by `x || dflt`. -/
def truthy : JsValue → Bool
  | JsValue.vUndef => false
  | JsValue.vNull => false
  | JsValue.vBool b => b
  | JsValue.vNum n => n != 0
  | JsValue.vStr s => s != ""
  | JsValue.vArr _ => true
  | JsValue.vObj _ => true

/-- The JS expression `v || dflt`. -/
def jsOr (v dflt : JsValue) : JsValue :=
  if truthy v then v else dflt

mutual

/-- `JSON.stringify` as used by `WebSocketService.send`. -/
def jsonStringify : JsValue → String
  | JsValue.vUndef => "undefined"
  | JsValue.vNull => "null"
  | JsValue.vBool true => "true"
  | JsValue.vBool false => "false"
  | JsValue.vNum n => toString n
  | JsValue.vStr s => "\"" ++ s ++ "\""
  | JsValue.vArr xs => "[" ++ stringifyElems xs ++ "]"
  | JsValue.vObj fs => "\x7b" ++ stringifyFields fs ++ "\x7d"

def stringifyElems : List JsValue → String
  | [] => ""
  | [x] => jsonStringify x
  | x :: y :: xs => jsonStringify x ++ "," ++ stringifyElems (y :: xs)

def stringifyFields : List (String × JsValue) → String
  | [] => ""
  | [(k, v)] => "\"" ++ k ++ "\":" ++ jsonStringify v
  | (k, v) :: y :: xs => "\"" ++ k ++ "\":" ++ jsonStringify v ++ "," ++ stringifyFields (y :: xs)

end

-- The browser WebSocket `readyState` constants.
namespace WebSocket

def CONNECTING : Nat := 0

def OPEN : Nat := 1

def CLOSING : Nat := 2

def CLOSED : Nat := 3

end WebSocket

/-- The mutable fields of the `WebSocketService` class in
`frontend/src/services/api.js`. `socket = none` models `this.socket = null`;
`socket = some rs` models a socket object whose `readyState` is `rs`.
The `listeners` dictionary is not needed by any claim and is omitted;
emitted event names are tracked by the event semantics below. -/
structure WSService where
  socket : Option Nat
  reconnectAttempts : Nat
  maxReconnectAttempts : Nat
  reconnectInterval : Nat
  isConnecting : Bool
deriving Repr, DecidableEq

namespace WebSocketService

/-- The constructor of `WebSocketService` (api.js lines 87-94). -/
def init : WSService :=
  { socket := none
    reconnectAttempts := 0
    maxReconnectAttempts := 5
    reconnectInterval := 3000
    isConnecting := false }

/-- `connect()` (api.js lines 96-105, the synchronous part): an early return
when already connecting or when the current socket is OPEN; otherwise it sets
`isConnecting` and creates a new socket (readyState CONNECTING). The attached
event handlers fire later and are modelled as events of `stepEv`. -/
def connect (s : WSService) : WSService :=
  if s.isConnecting || s.socket == some WebSocket.OPEN then s
  else { s with isConnecting := true, socket := some WebSocket.CONNECTING }

/-- `handleReconnect()` (api.js lines 143-154). Returns the new service state
and `some delay` when `setTimeout(() => this.connect(), this.reconnectInterval)`
is installed, `none` when the attempt limit is reached (only the
"Max reconnection attempts reached" log happens). -/
def handleReconnect (s : WSService) : WSService × Option Nat :=
  if s.reconnectAttempts < s.maxReconnectAttempts then
    ({ s with reconnectAttempts := s.reconnectAttempts + 1 }, some s.reconnectInterval)
  else (s, none)

/-- `disconnect()` (api.js lines 156-162): `socket.close(); socket = null;
isConnecting = false`. Closing the underlying socket makes its close event
fire later (event `sockClose` of `stepEv`). -/
def disconnect (s : WSService) : WSService :=
  { s with socket := none, isConnecting := false }

/-- The outcome of one `send(data)` call: the wire payload actually
transmitted (if any) and whether the "WebSocket is not connected" warning
was logged. -/
structure SendResult where
  transmitted : Option String
  warned : Bool
deriving Repr, DecidableEq

/-- `send(data)` (api.js lines 164-170): transmit `JSON.stringify(data)` when
`this.socket && this.socket.readyState === WebSocket.OPEN`, otherwise log a
warning and transmit nothing. -/
def send (s : WSService) (data : JsValue) : SendResult :=
  if s.socket == some WebSocket.OPEN then
    { transmitted := some (jsonStringify data), warned := false }
  else
    { transmitted := none, warned := true }

/-- `ping()` (api.js lines 192-194): `this.send({ type: "ping" })`. -/
def ping (s : WSService) : SendResult :=
  send s (JsValue.vObj [("type", JsValue.vStr "ping")])

/-- `getStatus()` (api.js lines 197-206). -/
def getStatus (s : WSService) : String :=
  match s.socket with
  | none => "disconnected"
  | some rs =>
    if rs == WebSocket.CONNECTING then "connecting"
    else if rs == WebSocket.OPEN then "connected"
    else if rs == WebSocket.CLOSING then "closing"
    else if rs == WebSocket.CLOSED then "disconnected"
    else "unknown"

/-- The `socket.onmessage` handler (api.js lines 114-121): on a successful
`JSON.parse` it emits the `"update"` event with the parsed value; when the
parse throws, the catch block only logs. Returns the emitted events and
whether the handler closes the connection (it never does). -/
def onmessage (parsed : Option JsValue) : List (String × JsValue) × Bool :=
  match parsed with
  | some data => ([("update", data)], false)
  | none => ([], false)

end WebSocketService

/-- The module-scope keepalive `setInterval` callback (api.js lines 212-217):
every 30 seconds, ping iff the socket of the singleton exists and is OPEN. -/
def pingTick (s : WSService) : WebSocketService.SendResult :=
  if s.socket == some WebSocket.OPEN then WebSocketService.ping s
  else { transmitted := none, warned := false }

/-- One observable occurrence in the life of the `webSocketService` singleton:
consumer API calls, socket events firing the handlers attached in `connect()`,
a pending reconnect `setTimeout` firing, and the 30-second keepalive interval
firing. -/
inductive WSEvent where
  | callConnect : WSEvent
  | sockOpen : WSEvent
  | sockClose : WSEvent
  | sockError : WSEvent
  | callDisconnect : WSEvent
  | timerFire : WSEvent
  | callSend : JsValue → WSEvent
  | pingTimer : WSEvent
deriving Repr

/-- The service state together with its environment bookkeeping: the delays of
pending `setTimeout(connect, …)` reconnect timers, every wire payload the
client has transmitted, and every event name emitted to listeners. -/
structure WSConfig where
  svc : WSService
  timers : List Nat
  transmitted : List String
  emitted : List String
deriving Repr

def initConfig : WSConfig :=
  { svc := WebSocketService.init, timers := [], transmitted := [], emitted := [] }

/-- One step of the client machine. Each branch is the corresponding handler
body from api.js:
* `callConnect` — the synchronous part of `connect()`;
* `sockOpen` — the browser moves `readyState` to OPEN, then `socket.onopen`
  runs (lines 107-112): log, `isConnecting = false`, `reconnectAttempts = 0`,
  `emit("connect")` — it transmits nothing;
* `sockClose` — the closing socket reaches `readyState` CLOSED (when
  `this.socket` still references it), then `socket.onclose` runs (lines
  123-128): log, `isConnecting = false`, `emit("disconnect")`,
  `handleReconnect()`;
* `sockError` — `socket.onerror` (lines 130-134);
* `callDisconnect` — `disconnect()`; the deliberately closed socket will still
  fire its close event (`sockClose`) afterwards, because `disconnect()`
  neither detaches `onclose` nor sets any flag;
* `timerFire` — one pending reconnect timeout elapses and calls `connect()`;
* `callSend` — the consumer calls `send(data)`;
* `pingTimer` — the 30-second keepalive interval callback. -/
def stepEv (c : WSConfig) : WSEvent → WSConfig
  | WSEvent.callConnect => { c with svc := WebSocketService.connect c.svc }
  | WSEvent.sockOpen =>
    { c with
      svc := { c.svc with socket := some WebSocket.OPEN, isConnecting := false,
                          reconnectAttempts := 0 }
      emitted := c.emitted ++ ["connect"] }
  | WSEvent.sockClose =>
    let s1 : WSService :=
      { c.svc with
        socket := match c.svc.socket with
                  | none => none
                  | some _ => some WebSocket.CLOSED
        isConnecting := false }
    let r := WebSocketService.handleReconnect s1
    { c with svc := r.1, timers := c.timers ++ r.2.toList,
             emitted := c.emitted ++ ["disconnect"] }
  | WSEvent.sockError =>
    { c with svc := { c.svc with isConnecting := false }, emitted := c.emitted ++ ["error"] }
  | WSEvent.callDisconnect => { c with svc := WebSocketService.disconnect c.svc }
  | WSEvent.timerFire =>
    match c.timers with
    | [] => c
    | _ :: rest => { c with svc := WebSocketService.connect c.svc, timers := rest }
  | WSEvent.callSend data =>
    { c with transmitted := c.transmitted ++ (WebSocketService.send c.svc data).transmitted.toList }
  | WSEvent.pingTimer =>
    if c.svc.socket == some WebSocket.OPEN then
      { c with transmitted := c.transmitted ++ (WebSocketService.ping c.svc).transmitted.toList }
    else c

/-- The configuration reached from a fresh `WebSocketService` after a sequence
of events. -/
def runEvents (evs : List WSEvent) : WSConfig :=
  evs.foldl stepEv initConfig

namespace App

/-- The state hooks of `App` in `frontend/src/App.js` that the claims touch. -/
structure AppState where
  selectedRoute : Option JsValue
  isConnected : Bool
deriving Repr

/-- The `"connect"` listener registered by `App.js` (lines 19-22):
`setIsConnected(true)` and a log. It calls `send` on nothing, so the list of
messages it hands to the service is empty. -/
def onConnect (s : AppState) : AppState × List JsValue :=
  ({ s with isConnected := true }, [])

/-- The subscribe request object built by `handleRouteSelect` (App.js lines
46-50): `{ type: "subscribe", subscription_type: "route", route_id: route.id }`. -/
def subscribePayload (route : JsValue) : JsValue :=
  JsValue.vObj [("type", JsValue.vStr "subscribe"),
                ("subscription_type", JsValue.vStr "route"),
                ("route_id", jsGet route "id")]

/-- `handleRouteSelect(route)` (App.js lines 41-52): `setSelectedRoute(route)`;
if connected, one `WebSocketService.send` call with the subscribe payload.
Returns the new state and the list of payloads handed to `send`. -/
def handleRouteSelect (isConnected : Bool) (route : JsValue) (s : AppState) :
    AppState × List JsValue :=
  ({ s with selectedRoute := some route },
   if isConnected then [subscribePayload route] else [])

end App

namespace AppFull

/-- The state hooks of the full App component (unnamed part_001) that the
claims touch. -/
structure State where
  busLocations : JsValue
  predictions : JsValue
  isConnected : Bool
  lastUpdate : Option Nat
  error : Option String
  retryCount : Nat
deriving Repr

/-- The body of `websocket.onmessage` (part_001 lines 238-249) after a
successful `JSON.parse`: when `data.type === "update"`, replace the bus
locations with `data.bus_locations || []`, the predictions with
`data.predictions || []`, and stamp `lastUpdate`; any other type leaves the
state untouched. -/
def onParsed (data : JsValue) (now : Nat) (s : State) : State :=
  if jsGet data "type" == JsValue.vStr "update" then
    { s with busLocations := jsOr (jsGet data "bus_locations") (JsValue.vArr [])
             predictions := jsOr (jsGet data "predictions") (JsValue.vArr [])
             lastUpdate := some now }
  else s

/-- `handleError(error, context)` of part_001 (lines 89-95): log, then
`setError(context + ": " + message)`. (It also schedules
`setTimeout(() => setError(null), 5000)`, a later auto-clear of the same
field, which no claim touches.) -/
def handleError (context msg : String) (s : State) : State :=
  { s with error := some (context ++ ": " ++ msg) }

/-- The whole `websocket.onmessage` handler (part_001 lines 238-249):
`none` models `JSON.parse` throwing with message `errMsg`, in which case the
catch block calls `handleError(error, "Parsing WebSocket message")`, setting
the transient error banner and nothing else. The second component records
whether the handler closed the connection — it never does. -/
def onmessage (parsed : Option JsValue) (errMsg : String) (now : Nat) (s : State) :
    State × Bool :=
  match parsed with
  | some data => (onParsed data now s, false)
  | none => (handleError "Parsing WebSocket message" errMsg s, false)

/-- `websocket.onopen` (part_001 lines 231-236): `setIsConnected(true)`,
`setError(null)`, `setRetryCount(0)`; the returned list of transmitted
messages is empty because the handler sends nothing. -/
def onopen (s : State) : State × List JsValue :=
  ({ s with isConnected := true, error := none, retryCount := 0 }, [])

/-- `websocket.onclose` (part_001 lines 251-256): `setIsConnected(false)` and
an unconditional `setTimeout(connectWebSocket, 3000)`. The second component is
the delay of the reconnect attempt it schedules — always `some 3000`,
whatever the state: this client keeps no attempt counter. -/
def onclose (s : State) : State × Option Nat :=
  ({ s with isConnected := false }, some 3000)

/-- Iterate `onclose` over `n` consecutive close events and count how many
reconnect attempts get scheduled. -/
def closeRun : Nat → State → State × Nat
  | 0, s => (s, 0)
  | n + 1, s =>
    let (s1, t) := onclose s
    let (s2, k) := closeRun n s1
    (s2, k + (if t.isSome then 1 else 0))

def init : State :=
  { busLocations := JsValue.vArr [], predictions := JsValue.vArr [],
    isConnected := false, lastUpdate := none, error := none, retryCount := 0 }

end AppFull

namespace AppSimple

/-- The state hooks of `frontend/src/App_simple.js` that the claims touch. -/
structure State where
  buses : JsValue
  lastUpdate : Option Nat
deriving Repr

/-- The body of `ws.onmessage` (App_simple.js lines 24-34) after a successful
`JSON.parse`. -/
def onParsed (data : JsValue) (now : Nat) (s : State) : State :=
  if jsGet data "type" == JsValue.vStr "update" then
    { s with buses := jsOr (jsGet data "bus_locations") (JsValue.vArr [])
             lastUpdate := some now }
  else s

/-- The whole `ws.onmessage` handler of App_simple.js; `none` models
`JSON.parse` throwing (the catch only logs). The Bool records whether the
handler closed the connection — it never does. -/
def onmessage (parsed : Option JsValue) (now : Nat) (s : State) : State × Bool :=
  match parsed with
  | some data => (onParsed data now s, false)
  | none => (s, false)

end AppSimple

/-- Modelled from the spec: the wire shape the spec assigns to a
route-filtered subscribe request — `{ type: "subscribe", filter: "route",
value: <route identifier> }` — used only to compare the specified shape with
the one the code actually sends. -/
def specSubscribeShape (value : JsValue) : JsValue :=
  JsValue.vObj [("type", JsValue.vStr "subscribe"),
                ("filter", JsValue.vStr "route"),
                ("value", value)]

/-! ## Concrete inputs used by witnesses and counterexamples -/

/-- A service whose socket is open (the state right after `onopen`). -/
def svcOpenState : WSService :=
  { WebSocketService.init with socket := some WebSocket.OPEN }

/-- A service in the middle of a connection attempt. -/
def svcBusyState : WSService :=
  { WebSocketService.init with isConnecting := true }

/-- An `App.js` component state before any route selection. -/
def appInitState : App.AppState :=
  { selectedRoute := none, isConnected := true }

/-- A concrete route record as the REST API returns it. -/
def route7 : JsValue := JsValue.vObj [("id", JsValue.vNum 7)]

/-- The payloads handed to `send` by one `handleRouteSelect` call while
connected. -/
def sentOnSelect : List JsValue :=
  (App.handleRouteSelect true route7 appInitState).2

/-- A concrete well-formed `update` envelope. -/
def updateEnvelope : JsValue :=
  JsValue.vObj [("type", JsValue.vStr "update"), ("tick", JsValue.vNum 3),
                ("timestamp", JsValue.vStr "2025-01-01T00:00:00"),
                ("bus_locations", JsValue.vArr [JsValue.vObj [("id", JsValue.vNum 1)]]),
                ("predictions", JsValue.vArr [])]

/-- A concrete parsed message whose type is not `update`. -/
def pongEnvelope : JsValue := JsValue.vObj [("type", JsValue.vStr "pong")]

/-- connect, then five failed attempts in a row: the service reaches the
maximum reconnect-attempt count. -/
def evsFiveCloses : List WSEvent :=
  WSEvent.callConnect :: List.replicate 5 WSEvent.sockClose

/-- connect, then one unexpected close. -/
def evsOneClose : List WSEvent := [WSEvent.callConnect, WSEvent.sockClose]

/-- connect, open, then the consumer deliberately calls `disconnect()`. -/
def evsDeliberateDisconnect : List WSEvent :=
  [WSEvent.callConnect, WSEvent.sockOpen, WSEvent.callDisconnect]

/-- The same, followed by the close event that the deliberately closed socket
still fires (its `onclose` handler was never detached). -/
def evsDeliberateDisconnectClosed : List WSEvent :=
  evsDeliberateDisconnect ++ [WSEvent.sockClose]

/-! ## Helper lemmas about the service machine -/

theorem handleReconnect_snd (s : WSService) :
    (WebSocketService.handleReconnect s).2 =
      if s.reconnectAttempts < s.maxReconnectAttempts then some s.reconnectInterval
      else none := by
  unfold WebSocketService.handleReconnect
  split <;> rfl

theorem handleReconnect_fst_max (s : WSService) :
    ((WebSocketService.handleReconnect s).1).maxReconnectAttempts = s.maxReconnectAttempts := by
  unfold WebSocketService.handleReconnect
  split <;> rfl

theorem handleReconnect_fst_interval (s : WSService) :
    ((WebSocketService.handleReconnect s).1).reconnectInterval = s.reconnectInterval := by
  unfold WebSocketService.handleReconnect
  split <;> rfl

theorem handleReconnect_fst_attempts (s : WSService) :
    ((WebSocketService.handleReconnect s).1).reconnectAttempts =
      if s.reconnectAttempts < s.maxReconnectAttempts then s.reconnectAttempts + 1
      else s.reconnectAttempts := by
  unfold WebSocketService.handleReconnect
  split <;> rfl

/-- The configuration invariant of the `WebSocketService` machine: the
constructor constants are never mutated, the attempt counter never exceeds
the maximum, and every pending reconnect timer carries the fixed
3000-millisecond delay. -/
def GoodConfig (c : WSConfig) : Prop :=
  c.svc.maxReconnectAttempts = 5 ∧ c.svc.reconnectInterval = 3000 ∧
  c.svc.reconnectAttempts ≤ 5 ∧ ∀ d ∈ c.timers, d = 3000

theorem goodConfig_init : GoodConfig initConfig := by
  refine ⟨rfl, rfl, by decide, ?_⟩
  intro d hd
  simp [initConfig] at hd

theorem connect_preserves (s : WSService) :
    (WebSocketService.connect s).maxReconnectAttempts = s.maxReconnectAttempts ∧
    (WebSocketService.connect s).reconnectInterval = s.reconnectInterval ∧
    (WebSocketService.connect s).reconnectAttempts = s.reconnectAttempts := by
  unfold WebSocketService.connect
  split <;> exact ⟨rfl, rfl, rfl⟩

theorem stepEv_good (c : WSConfig) (e : WSEvent) (h : GoodConfig c) :
    GoodConfig (stepEv c e) := by
  obtain ⟨hm, hi, ha, ht⟩ := h
  cases e with
  | callConnect =>
    obtain ⟨h1, h2, h3⟩ := connect_preserves c.svc
    exact ⟨h1.trans hm, h2.trans hi, h3 ▸ ha, ht⟩
  | sockOpen => exact ⟨hm, hi, Nat.zero_le _, ht⟩
  | sockClose =>
    simp only [stepEv]
    refine ⟨(handleReconnect_fst_max _).trans hm, (handleReconnect_fst_interval _).trans hi, ?_, ?_⟩
    · rw [handleReconnect_fst_attempts]
      split
      · next hlt =>
        have : c.svc.reconnectAttempts < 5 := by
          simpa [hm] using hlt
        show c.svc.reconnectAttempts + 1 ≤ 5
        omega
      · exact ha
    · intro d hd
      rw [List.mem_append] at hd
      rcases hd with hd | hd
      · exact ht d hd
      · rw [handleReconnect_snd] at hd
        split at hd
        · simp at hd
          simp [hd, hi]
        · simp at hd
  | sockError => exact ⟨hm, hi, ha, ht⟩
  | callDisconnect => exact ⟨hm, hi, ha, ht⟩
  | timerFire =>
    cases htimers : c.timers with
    | nil => simpa [stepEv, htimers] using ⟨hm, hi, ha, ht⟩
    | cons d rest =>
      obtain ⟨h1, h2, h3⟩ := connect_preserves c.svc
      refine ⟨?_, ?_, ?_, ?_⟩
      · simpa [stepEv, htimers] using h1.trans hm
      · simpa [stepEv, htimers] using h2.trans hi
      · simpa [stepEv, htimers] using h3 ▸ ha
      · intro x hx
        apply ht
        simp only [stepEv, htimers] at hx
        exact htimers ▸ List.mem_cons_of_mem d hx
  | callSend data => exact ⟨hm, hi, ha, ht⟩
  | pingTimer =>
    by_cases hsock : (c.svc.socket == some WebSocket.OPEN) = true
    · simpa [stepEv, hsock] using ⟨hm, hi, ha, ht⟩
    · simpa [stepEv, hsock] using ⟨hm, hi, ha, ht⟩

theorem foldl_good (evs : List WSEvent) (c : WSConfig) (h : GoodConfig c) :
    GoodConfig (evs.foldl stepEv c) := by
  induction evs generalizing c with
  | nil => exact h
  | cons e rest ih => exact ih (stepEv c e) (stepEv_good c e h)

/-- Every reachable configuration of the service machine satisfies the
invariant. -/
theorem runEvents_good (evs : List WSEvent) : GoodConfig (runEvents evs) :=
  foldl_good evs initConfig goodConfig_init

theorem handleReconnect_fst_socket (s : WSService) :
    ((WebSocketService.handleReconnect s).1).socket = s.socket := by
  unfold WebSocketService.handleReconnect
  split <;> rfl

/-- What a close event does to the pending-timer list, in terms of the
pre-state: a single fixed-delay reconnect timeout is appended exactly when
the attempt counter is still below the maximum. -/
theorem sockClose_timers_eq (c : WSConfig) :
    (stepEv c WSEvent.sockClose).timers =
      c.timers ++ (if c.svc.reconnectAttempts < c.svc.maxReconnectAttempts
                   then [c.svc.reconnectInterval] else []) := by
  show c.timers ++ _ = _
  rw [handleReconnect_snd]
  by_cases h : c.svc.reconnectAttempts < c.svc.maxReconnectAttempts
  · simp [h]
  · simp [h]

theorem sockClose_svc_socket (c : WSConfig) :
    (stepEv c WSEvent.sockClose).svc.socket =
      (match c.svc.socket with
       | none => none
       | some _ => some WebSocket.CLOSED) := by
  show ((WebSocketService.handleReconnect _).1).socket = _
  rw [handleReconnect_fst_socket]

theorem sockClose_getStatus (c : WSConfig) :
    WebSocketService.getStatus (stepEv c WSEvent.sockClose).svc = "disconnected" := by
  unfold WebSocketService.getStatus
  rw [sockClose_svc_socket]
  cases c.svc.socket with
  | none => rfl
  | some rs => rfl

/-! ## Claims -/

/-- C1 (counterexample): as stated, the claim fails on the repository: the
full App component (part_001) is also client reconnection logic, and its
`onclose` handler schedules a new connection attempt unconditionally — it
keeps no attempt counter at all. After five consecutive closes (the claimed
maximum) a sixth close still schedules an attempt, and after six closes six
attempts have been scheduled. -/
theorem part001_reconnect_unbounded :
    (AppFull.onclose (AppFull.closeRun 5 AppFull.init).1).2 = some 3000 ∧
    (AppFull.closeRun 6 AppFull.init).2 = 6 ∧
    ¬ (AppFull.closeRun 6 AppFull.init).2 ≤ 5 :=
  ⟨rfl, rfl, by decide⟩

/-- C1 (amended): for the `WebSocketService` reconnection agent of
`frontend/src/services/api.js` the claim holds: in every reachable
configuration the attempt counter is at most 5; a close event schedules a new
(3000 ms) connection attempt exactly while the counter is strictly below 5;
and once the counter has reached 5, a close schedules nothing and the agent
reports the persistent `"disconnected"` status. -/
theorem wsService_bounded_reconnect (evs : List WSEvent) :
    (runEvents evs).svc.reconnectAttempts ≤ 5 ∧
    ((runEvents evs).svc.reconnectAttempts < 5 →
      (stepEv (runEvents evs) WSEvent.sockClose).timers = (runEvents evs).timers ++ [3000]) ∧
    ((runEvents evs).svc.reconnectAttempts = 5 →
      (stepEv (runEvents evs) WSEvent.sockClose).timers = (runEvents evs).timers ∧
      WebSocketService.getStatus (stepEv (runEvents evs) WSEvent.sockClose).svc
        = "disconnected") := by
  obtain ⟨hm, hi, ha, ht⟩ := runEvents_good evs
  refine ⟨ha, ?_, ?_⟩
  · intro hlt
    rw [sockClose_timers_eq, hm, hi, if_pos hlt]
  · intro heq
    refine ⟨?_, sockClose_getStatus _⟩
    rw [sockClose_timers_eq, hm, hi, heq]
    simp

/-- C1 witness: after `connect()` and five failed attempts the counter is 5,
and a further close schedules nothing while the status stays
`"disconnected"`. -/
theorem wsService_bounded_reconnect_witness :
    (runEvents evsFiveCloses).svc.reconnectAttempts = 5 ∧
    (stepEv (runEvents evsFiveCloses) WSEvent.sockClose).timers
      = (runEvents evsFiveCloses).timers ∧
    WebSocketService.getStatus (stepEv (runEvents evsFiveCloses) WSEvent.sockClose).svc
      = "disconnected" :=
  ⟨rfl, ((wsService_bounded_reconnect evsFiveCloses).2.2 rfl).1,
   ((wsService_bounded_reconnect evsFiveCloses).2.2 rfl).2⟩

/-- C2: a parsed message whose `type` is `"update"` makes the client replace
its bus-location state with the vehicle list of the envelope and its
prediction state with the prediction list of the envelope (part_001 handler); a parsed
message of any other type leaves the state of both the part_001 handler and
the App_simple handler unchanged. -/
theorem update_message_replaces_state (data : JsValue) (now : Nat) (s : AppFull.State) :
    (∀ vs ps : List JsValue,
      jsGet data "type" = JsValue.vStr "update" →
      jsGet data "bus_locations" = JsValue.vArr vs →
      jsGet data "predictions" = JsValue.vArr ps →
      AppFull.onParsed data now s =
        { s with busLocations := JsValue.vArr vs, predictions := JsValue.vArr ps,
                 lastUpdate := some now }) ∧
    ((jsGet data "type" == JsValue.vStr "update") = false →
      AppFull.onParsed data now s = s) ∧
    ((jsGet data "type" == JsValue.vStr "update") = false →
      ∀ s2 : AppSimple.State, AppSimple.onParsed data now s2 = s2) := by
  refine ⟨?_, ?_, ?_⟩
  · intro vs ps hT hV hP
    unfold AppFull.onParsed
    rw [hT, hV, hP]
    rfl
  · intro hF
    unfold AppFull.onParsed
    rw [hF]
    rfl
  · intro hF s2
    unfold AppSimple.onParsed
    rw [hF]
    rfl

/-- C2 witness: a concrete update envelope replaces both lists; a concrete
pong message changes nothing. -/
theorem update_message_replaces_state_witness :
    AppFull.onParsed updateEnvelope 42 AppFull.init =
      { AppFull.init with
        busLocations := JsValue.vArr [JsValue.vObj [("id", JsValue.vNum 1)]],
        predictions := JsValue.vArr [], lastUpdate := some 42 } ∧
    AppFull.onParsed pongEnvelope 42 AppFull.init = AppFull.init :=
  ⟨(update_message_replaces_state updateEnvelope 42 AppFull.init).1 _ _ rfl rfl rfl,
   (update_message_replaces_state pongEnvelope 42 AppFull.init).2.1 rfl⟩

/-- C3 (counterexample): the claim fails on the code. Selecting route 7 while
connected sends exactly one subscribe request, but its payload is not the
claimed `{ type: "subscribe", filter: "route", value: 7 }`: the sent object
has no `filter` and no `value` property at all (both read back `undefined`,
which is not the string `"route"`), and it differs from the claimed shape. -/
theorem subscribe_payload_not_spec_shape :
    sentOnSelect.length = 1 ∧
    jsGet (sentOnSelect.headD JsValue.vNull) "filter" = JsValue.vUndef ∧
    jsGet (sentOnSelect.headD JsValue.vNull) "value" = JsValue.vUndef ∧
    JsValue.vUndef ≠ JsValue.vStr "route" ∧
    (sentOnSelect.headD JsValue.vNull == specSubscribeShape (JsValue.vNum 7)) = false :=
  ⟨rfl, rfl, rfl, fun h => JsValue.noConfusion h, rfl⟩

/-- C3 (amended): selecting a route while connected sends exactly one
subscribe request, whose payload is
`{ type: "subscribe", subscription_type: "route", route_id: <route id> }`;
when the socket is OPEN the service transmits exactly its JSON
serialization. -/
theorem subscribe_sends_one_actual_shape (route : JsValue) (s : App.AppState)
    (conn : Bool) (h : conn = true) :
    (App.handleRouteSelect conn route s).2 = [App.subscribePayload route] ∧
    jsGet (App.subscribePayload route) "type" = JsValue.vStr "subscribe" ∧
    jsGet (App.subscribePayload route) "subscription_type" = JsValue.vStr "route" ∧
    jsGet (App.subscribePayload route) "route_id" = jsGet route "id" ∧
    (∀ svc : WSService, svc.socket = some WebSocket.OPEN →
      (WebSocketService.send svc (App.subscribePayload route)).transmitted =
        some (jsonStringify (App.subscribePayload route))) := by
  subst h
  refine ⟨rfl, rfl, rfl, rfl, ?_⟩
  intro svc hs
  simp [WebSocketService.send, hs]

/-- C3 witness: the concrete route with id 7 yields one send call, and an
open socket transmits its serialization. -/
theorem subscribe_sends_one_actual_shape_witness :
    (App.handleRouteSelect true route7 appInitState).2 = [App.subscribePayload route7] ∧
    (WebSocketService.send svcOpenState (App.subscribePayload route7)).transmitted =
      some "\x7b\"type\":\"subscribe\",\"subscription_type\":\"route\",\"route_id\":7\x7d" :=
  ⟨(subscribe_sends_one_actual_shape route7 appInitState true rfl).1,
   ((subscribe_sends_one_actual_shape route7 appInitState true rfl).2.2.2.2
      svcOpenState rfl).trans rfl⟩

/-- C4: the reconnect delay is the fixed 3000 ms, independent of the attempt
number: the constructor constant is never mutated, every pending timer ever
scheduled carries delay 3000, a close while attempts remain schedules exactly
a 3000 ms timeout, and the part_001 client `onclose` also always schedules
3000 ms. -/
theorem fixed_reconnect_delay (evs : List WSEvent) :
    (runEvents evs).svc.reconnectInterval = 3000 ∧
    (∀ d ∈ (runEvents evs).timers, d = 3000) ∧
    ((runEvents evs).svc.reconnectAttempts < 5 →
      (stepEv (runEvents evs) WSEvent.sockClose).timers = (runEvents evs).timers ++ [3000]) ∧
    (∀ s : AppFull.State, (AppFull.onclose s).2 = some 3000) := by
  obtain ⟨hm, hi, ha, ht⟩ := runEvents_good evs
  refine ⟨hi, ht, ?_, fun s => rfl⟩
  intro hlt
  rw [sockClose_timers_eq, hm, hi, if_pos hlt]

/-- C4 witness: after one unexpected close a pending 3000 ms timer exists and
is the only delay value; a close while below the maximum appends `[3000]`. -/
theorem fixed_reconnect_delay_witness :
    3000 ∈ (runEvents evsOneClose).timers ∧ 3000 = 3000 ∧
    (stepEv (runEvents [WSEvent.callConnect]) WSEvent.sockClose).timers
      = (runEvents [WSEvent.callConnect]).timers ++ [3000] :=
  ⟨by decide, (fixed_reconnect_delay evsOneClose).2.1 3000 (by decide),
   (fixed_reconnect_delay [WSEvent.callConnect]).2.2.1 (by decide)⟩

/-- C5: the 30-second keepalive interval transmits the serialized
`{ type: "ping" }` message if and only if the socket of the singleton exists and
its `readyState` is OPEN; otherwise nothing is transmitted (and no warning is
logged, because the `ping()`/`send()` path is never entered). -/
theorem pingTick_iff_open (s : WSService) :
    ((pingTick s).transmitted ≠ none ↔ s.socket = some WebSocket.OPEN) ∧
    (s.socket = some WebSocket.OPEN →
      (pingTick s).transmitted =
        some (jsonStringify (JsValue.vObj [("type", JsValue.vStr "ping")]))) ∧
    (s.socket ≠ some WebSocket.OPEN →
      pingTick s = { transmitted := none, warned := false }) := by
  by_cases h : s.socket = some WebSocket.OPEN
  · refine ⟨⟨fun _ => h, fun _ => ?_⟩, fun _ => ?_, fun hn => absurd h hn⟩ <;>
      simp [pingTick, WebSocketService.ping, WebSocketService.send, h]
  · refine ⟨⟨fun hne => ?_, fun hh => absurd hh h⟩, fun hh => absurd hh h, fun _ => ?_⟩
    · exact absurd (by simp [pingTick, h]) hne
    · simp [pingTick, h]

/-- C5 witness: with an open socket the interval transmits the ping wire
message; with a fresh (socketless) service it transmits nothing. -/
theorem pingTick_iff_open_witness :
    (pingTick svcOpenState).transmitted = some "\x7b\"type\":\"ping\"\x7d" ∧
    pingTick WebSocketService.init = { transmitted := none, warned := false } :=
  ⟨((pingTick_iff_open svcOpenState).2.1 rfl).trans rfl,
   (pingTick_iff_open WebSocketService.init).2.2 (by decide)⟩

/-- C6: an inbound message whose payload fails `JSON.parse` is ignored by all
three onmessage handlers: the parse error is caught (part_001 additionally
surfaces it in the transient error banner via `handleError`), the vehicle and
prediction state is unchanged, the connection flag is untouched, and the
connection is never closed by the handler. The App_simple and api.js catch
blocks only log, leaving their state fully unchanged and emitting nothing. -/
theorem malformed_message_ignored :
    (∀ (errMsg : String) (now : Nat) (s : AppFull.State),
      (AppFull.onmessage none errMsg now s).1.busLocations = s.busLocations ∧
      (AppFull.onmessage none errMsg now s).1.predictions = s.predictions ∧
      (AppFull.onmessage none errMsg now s).1.isConnected = s.isConnected ∧
      (AppFull.onmessage none errMsg now s).1.error
        = some ("Parsing WebSocket message" ++ ": " ++ errMsg) ∧
      (AppFull.onmessage none errMsg now s).2 = false) ∧
    (∀ (now : Nat) (s : AppSimple.State), AppSimple.onmessage none now s = (s, false)) ∧
    WebSocketService.onmessage none = ([], false) :=
  ⟨fun _ _ _ => ⟨rfl, rfl, rfl, rfl, rfl⟩, fun _ _ => rfl, rfl⟩

/-- C7: on a (re)connect, the open handler transmits no message: the service
`onopen` only resets flags and emits `"connect"`, the App.js `"connect"`
listener passes nothing to `send`, and the part_001 `onopen` sends nothing —
so a prior subscribe request is never re-sent. -/
theorem onopen_transmits_nothing (c : WSConfig) (a : App.AppState) (f : AppFull.State) :
    (stepEv c WSEvent.sockOpen).transmitted = c.transmitted ∧
    (App.onConnect a).2 = [] ∧
    (AppFull.onopen f).2 = [] :=
  ⟨rfl, rfl, rfl⟩

/-- C8: evidence of the divergence. Before the close event of a deliberately
closed socket fires, no reconnect is pending; when that close event fires
(its handler was never detached and `disconnect()` sets no suppression flag),
`handleReconnect` runs and a 3000 ms automatic connection attempt IS
scheduled, with the attempt counter moving to 1. -/
theorem disconnect_still_schedules_reconnect :
    (runEvents evsDeliberateDisconnect).timers = [] ∧
    (runEvents evsDeliberateDisconnectClosed).timers = [3000] ∧
    (runEvents evsDeliberateDisconnectClosed).svc.reconnectAttempts = 1 :=
  ⟨rfl, rfl, rfl⟩

/-- C9: `send(data)` transmits `JSON.stringify(data)` exactly when the socket
exists and its `readyState` is OPEN; in every other state it transmits
nothing, logs the warning, and (being a total function) never throws. -/
theorem send_transmits_iff_open (s : WSService) (data : JsValue) :
    ((WebSocketService.send s data).transmitted ≠ none ↔ s.socket = some WebSocket.OPEN) ∧
    (s.socket = some WebSocket.OPEN →
      WebSocketService.send s data =
        { transmitted := some (jsonStringify data), warned := false }) ∧
    (s.socket ≠ some WebSocket.OPEN →
      WebSocketService.send s data = { transmitted := none, warned := true }) := by
  by_cases h : s.socket = some WebSocket.OPEN
  · refine ⟨⟨fun _ => h, fun _ => ?_⟩, fun _ => ?_, fun hn => absurd h hn⟩ <;>
      simp [WebSocketService.send, h]
  · refine ⟨⟨fun hne => ?_, fun hh => absurd hh h⟩, fun hh => absurd hh h, fun _ => ?_⟩
    · exact absurd (by simp [WebSocketService.send, h]) hne
    · simp [WebSocketService.send, h]

/-- C9 witness: a concrete send on an open socket transmits the serialized
payload; the same send on a fresh service only warns. -/
theorem send_transmits_iff_open_witness :
    WebSocketService.send svcOpenState pongEnvelope =
      { transmitted := some "\x7b\"type\":\"pong\"\x7d", warned := false } ∧
    WebSocketService.send WebSocketService.init pongEnvelope =
      { transmitted := none, warned := true } :=
  ⟨((send_transmits_iff_open svcOpenState pongEnvelope).2.1 rfl).trans rfl,
   (send_transmits_iff_open WebSocketService.init pongEnvelope).2.2 (by decide)⟩

/-- C10: calling `connect()` while a connection attempt is in progress, or
while the current socket is OPEN, is a complete no-op: the state is returned
unchanged, so no second socket is opened. -/
theorem connect_idempotent_when_busy (s : WSService)
    (h : s.isConnecting = true ∨ s.socket = some WebSocket.OPEN) :
    WebSocketService.connect s = s := by
  unfold WebSocketService.connect
  rcases h with h | h <;> simp [h]

/-- C10 witness: `connect()` on a connecting service and on an open service
changes nothing. -/
theorem connect_idempotent_when_busy_witness :
    WebSocketService.connect svcBusyState = svcBusyState ∧
    WebSocketService.connect svcOpenState = svcOpenState :=
  ⟨connect_idempotent_when_busy svcBusyState (Or.inl rfl),
   connect_idempotent_when_busy svcOpenState (Or.inr rfl)⟩
